import Mathlib

/-!
# Verification of the unoo24 Weather-API ETL pipeline

Shallow embedding of the repository's core:

* `src/etl_module/assets/weather.py` — `extract_weather`, `transform_weather`,
  `load_weather` and the `daily_weather` table definition;
* `src/etl_module/connectors/mysql.py` — `MySqlClient.create_table`,
  `drop_table`, `insert`, `upsert`, `overwrite`;
* `src/etl_module/pipeline/etl_pipeline.py` — `main` (one scheduled run).

Machine integers are modelled as `Nat`/`Int`; numeric payload columns
(`temperature`, `wind_speed`) as `Rat` (IEEE rounding is out of scope for all
claims below); timestamps as epoch seconds (`Nat`).  The MySQL table is a list
of rows, `none` meaning the table does not exist; a SQL statement that raises
in the driver is modelled by a `false` success flag.
-/

namespace WeatherEtl

/-- One raw observation as returned by `WeatherApiClient.get_city`
(`src/etl_module/connectors/weather_api.py`): the fields of the OpenWeatherMap
JSON body that `transform_weather` consumes (`dt`, `id`, `name`, `main.temp`,
`main.humidity`, `wind.speed`). -/
structure Observation where
  dt : Nat
  id : Int
  name : String
  temp : Option Rat
  humidity : Option Int
  windSpeed : Option Rat
deriving DecidableEq

/-- One row of the `daily_weather` sink table, columns as selected and renamed
by `transform_weather` (`src/etl_module/assets/weather.py`, lines 42-61).
`measured_at` is the UTC+9-adjusted instant in epoch seconds. -/
structure WeatherRow where
  dt : String
  time : String
  measured_at : Nat
  id : Int
  city : String
  temperature : Option Rat
  humidity : Option Int
  wind_speed : Option Rat
deriving DecidableEq

/-- Primary-key tuple of `daily_weather` as declared in `load_weather`
(`src/etl_module/assets/weather.py`, lines 82-85): the columns `dt`, `time`
and `id` are all marked `primary_key=True`. -/
abbrev PK := String × String × Int

/-- The primary-key tuple of a row (columns `dt`, `time`, `id`). -/
def rowKey (r : WeatherRow) : PK := (r.dt, r.time, r.id)

/-! ## Calendar and `strftime` model

`transform_weather` computes `pd.to_datetime(df["dt"], unit="s")` and formats
with `strftime("%Y%m%d")` / `strftime("%H%M%S")`.  We model the proleptic
Gregorian calendar computation with the standard civil-from-days algorithm and
zero-padded decimal formatting.  `pandas` `datetime64[ns]` values are bounded
(they overflow past 9223372036 epoch seconds), so `%Y` always prints exactly
four digits on representable inputs; past 9999 the fall-back prints the full
decimal expansion, as `strftime` does. -/

/-- The decimal digit character of `n % 10`. -/
def digitChar (n : Nat) : Char := Char.ofNat (48 + n % 10)

/-- Zero-padded two-digit decimal rendering (as `strftime` `%m`/`%d`/`%H`/
`%M`/`%S` on in-range values). -/
def fmt2 (n : Nat) : String :=
  if n < 100 then String.mk [digitChar (n / 10), digitChar n]
  else Nat.repr n

/-- Zero-padded four-digit decimal rendering (as `strftime` `%Y` on years up
to 9999). -/
def fmt4 (n : Nat) : String :=
  if n < 10000 then
    String.mk [digitChar (n / 1000), digitChar (n / 100), digitChar (n / 10), digitChar n]
  else Nat.repr n

/-- Civil date of the `doe`-th day of the 400-year era number `era` (eras
count from 0000-03-01), the per-era step of the standard civil-from-days
algorithm for the proleptic Gregorian calendar. -/
def civilOfEraDoe (era doe : Nat) : Nat × Nat × Nat :=
  let yoe := (doe - doe / 1460 + doe / 36524 - doe / 146096) / 365
  let doy := doe - (365 * yoe + yoe / 4 - yoe / 100)
  let mp := (5 * doy + 2) / 153
  let d := doy - (153 * mp + 2) / 5 + 1
  let m := if mp < 10 then mp + 3 else mp - 9
  if m ≤ 2 then (yoe + era * 400 + 1, m, d) else (yoe + era * 400, m, d)

/-- Civil date `(year, month, day)` of a count of days since 1970-01-01, by
the standard era-based algorithm for the proleptic Gregorian calendar. -/
def civilFromDays (z0 : Nat) : Nat × Nat × Nat :=
  let z := z0 + 719468
  civilOfEraDoe (z / 146097) (z % 146097)

/-- `strftime("%Y%m%d")` of an epoch-second instant. -/
def dateKeyOf (secs : Nat) : String :=
  let c := civilFromDays (secs / 86400)
  fmt4 c.1 ++ fmt2 c.2.1 ++ fmt2 c.2.2

/-- `strftime("%H%M%S")` of an epoch-second instant. -/
def timeKeyOf (secs : Nat) : String :=
  fmt2 (secs % 86400 / 3600) ++ fmt2 (secs % 3600 / 60) ++ fmt2 (secs % 60)

/-! ## `src/etl_module/assets/weather.py` -/

/-- `extract_weather` (lines 7-24).  The client `weather_api_client.get_city`
is a per-city call that either returns a JSON record or raises
(`src/etl_module/connectors/weather_api.py`, lines 15-37); it is passed in as
`api`.  Line 19 of the source reassigns the `cities` parameter to the literal
`["Busan", "Seoul"]` before the loop, so the argument is ignored; the `let`
below reproduces that shadowing. -/
def extract_weather (api : String → Except String Observation)
    (cities : List String) : Except String (List Observation) :=
  let cities : List String := ["Busan", "Seoul"]
  cities.mapM api

/-- The per-row computation of `transform_weather` (lines 37-61):
`measured_at = to_datetime(dt, unit="s") + 9 hours`, `dt` column re-derived
as `strftime("%Y%m%d")`, `time` as `strftime("%H%M%S")`, then column
selection and renaming (`name → city`, `main.temp → temperature`,
`main.humidity → humidity`, `wind.speed → wind_speed`). -/
def transformRow (o : Observation) : WeatherRow :=
  let measured := o.dt + 9 * 3600
  { dt := dateKeyOf measured
    time := timeKeyOf measured
    measured_at := measured
    id := o.id
    city := o.name
    temperature := o.temp
    humidity := o.humidity
    wind_speed := o.windSpeed }

/-- `transform_weather` (lines 27-62): the dataframe operations apply
`transformRow` to every record of the batch. -/
def transform_weather (df : List Observation) : List WeatherRow :=
  df.map transformRow

/-- One column of the SQLAlchemy `Table` built by `load_weather`:
name, type, `primary_key` flag and nullability. -/
structure ColumnDef where
  name : String
  typeName : String
  primaryKey : Bool
  nullable : Bool
deriving DecidableEq

/-- The `daily_weather` table definition constructed by `load_weather`
(`src/etl_module/assets/weather.py`, lines 78-90), column by column.
`Column("id", Integer, primary_key=True)` leaves `nullable` at SQLAlchemy's
default for primary-key columns, which is `False`. -/
def daily_weather_columns : List ColumnDef :=
  [ { name := "dt", typeName := "String(8)", primaryKey := true, nullable := false }
  , { name := "time", typeName := "String(6)", primaryKey := true, nullable := false }
  , { name := "measured_at", typeName := "DateTime", primaryKey := false, nullable := false }
  , { name := "id", typeName := "Integer", primaryKey := true, nullable := false }
  , { name := "city", typeName := "String(100)", primaryKey := false, nullable := true }
  , { name := "temperature", typeName := "Float", primaryKey := false, nullable := true }
  , { name := "humidity", typeName := "Integer", primaryKey := false, nullable := true }
  , { name := "wind_speed", typeName := "Float", primaryKey := false, nullable := true } ]

/-- The declared primary-key columns of a table definition, in declaration
order (`table.primary_key.columns` in `MySqlClient.upsert`). -/
def primaryKeyColumns (cols : List ColumnDef) : List String :=
  (cols.filter (fun c => c.primaryKey)).map (fun c => c.name)

/-! ## `src/etl_module/connectors/mysql.py`

The sink table is modelled as `Option (List WeatherRow)`: `none` means the
table does not exist, `some rows` is its content.  Each `MySqlClient` method
returns the table state observable after the call together with a success
flag; a `false` flag models the driver raising (here: a primary-key
`IntegrityError` from MySQL, the only statement failure derivable from the
code itself). -/

/-- State of the one configured sink table. -/
abbrev TableState := Option (List WeatherRow)

/-- `MySqlClient.create_table` (lines 43-50): `metadata.create_all` is
`CREATE TABLE IF NOT EXISTS` — it creates the table empty when absent and is
a no-op when present. -/
def create_table (st : TableState) : TableState :=
  some (st.getD [])

/-- `MySqlClient.drop_table` (lines 52-60): `DROP TABLE IF EXISTS`. -/
def drop_table (_st : TableState) : TableState :=
  none

/-- Whether the single bulk `INSERT` issued by `df.to_sql(..., if_exists=
"append")` succeeds against table content `tbl`: MySQL rejects the statement
(and, being a single statement, leaves the table unchanged) exactly when a
batch row's primary key duplicates an existing row's key or another batch
row's key. -/
def insertOk (tbl df : List WeatherRow) : Bool :=
  decide ((df.map rowKey).Nodup ∧ ∀ k ∈ df.map rowKey, k ∉ tbl.map rowKey)

/-- `MySqlClient.insert` (lines 62-72): ensure the table exists, then append
the batch with `df.to_sql(..., if_exists="append")`. -/
def insert (st : TableState) (df : List WeatherRow) : TableState × Bool :=
  let tbl := (create_table st).getD []
  if insertOk tbl df then (some (tbl ++ df), true) else (some tbl, false)

/-- The `DELETE ... WHERE (keys) IN (...)` step of `MySqlClient.upsert`
(lines 86-106): executed (and committed) only when the batch is non-empty
(`if key_values:`); it removes every existing row whose primary-key tuple
occurs in the batch. -/
def deleteKeys (tbl df : List WeatherRow) : List WeatherRow :=
  if (df.map rowKey).isEmpty then tbl
  else tbl.filter (fun r => decide (rowKey r ∉ df.map rowKey))

/-- `MySqlClient.upsert` (lines 74-109): ensure the table exists, delete the
batch's keys (committed as its own statement), then append the batch with a
separate `df.to_sql` call. -/
def upsert (st : TableState) (df : List WeatherRow) : TableState × Bool :=
  let tbl := (create_table st).getD []
  let tbl1 := deleteKeys tbl df
  if insertOk tbl1 df then (some (tbl1 ++ df), true) else (some tbl1, false)

/-- `MySqlClient.overwrite` (lines 111-127): ensure the table exists, drop
it, then `insert` (which recreates it and appends the batch). -/
def overwrite (st : TableState) (df : List WeatherRow) : TableState × Bool :=
  insert (drop_table (create_table st)) df

/-! ## `src/etl_module/pipeline/etl_pipeline.py` -/

/-- The error taxonomy of one run: every exception `main` can see.
`configError` carries the list of variable names interpolated into the
`ValueError` message (line 61: only variables whose value `is None`). -/
inductive RunError where
  | configError (missing : List String)
  | sourceError (msg : String)
  | constraintViolation
  | sinkError
  | badMethod (method : String)
deriving DecidableEq

/-- Lift a SQL statement result to an exception: a `false` success flag is a
raised driver error. -/
def liftSql (p : TableState × Bool) : Except RunError TableState :=
  if p.2 then Except.ok p.1 else Except.error RunError.constraintViolation

/-- `load_weather` (`src/etl_module/assets/weather.py`, lines 65-98): build
the `daily_weather` table definition and dispatch on `method`, raising for an
unrecognized method. -/
def load_weather (st : TableState) (df : List WeatherRow) (method : String) :
    Except RunError TableState :=
  if method = "insert" then liftSql (insert st df)
  else if method = "upsert" then liftSql (upsert st df)
  else if method = "overwrite" then liftSql (overwrite st df)
  else Except.error (RunError.badMethod method)

/-- The environment one run of `main` executes against: the six required
environment variables (`os.environ.get`, `none` = unset), the weather API
behaviour per city, the sink table state, and whether the database/driver
fails for an external reason (connectivity etc.) during the load. -/
structure RunEnv where
  api_key : Option String
  db_server_host : Option String
  db_username : Option String
  db_password : Option String
  db_database : Option String
  db_port : Option String
  apiResult : String → Except String Observation
  table : TableState
  sinkFails : Bool

/-- The six required variables in the order `main` reads them (lines 38-43 /
50-58). -/
def requiredVars (env : RunEnv) : List (String × Option String) :=
  [ ("API_KEY", env.api_key)
  , ("DB_SERVER_HOST", env.db_server_host)
  , ("DB_USERNAME", env.db_username)
  , ("DB_PASSWORD", env.db_password)
  , ("DB_DATABASE", env.db_database)
  , ("DB_PORT", env.db_port) ]

/-- Python truthiness of an optional string: `None` and `""` are falsy. -/
def isFalsy (v : Option String) : Bool :=
  match v with
  | none => true
  | some s => s = ""

/-- The `missing_vars` list (lines 49-60): variables whose value `is None`
(an empty string is falsy but not `None`, so it is not collected). -/
def missingVars (env : RunEnv) : List String :=
  ((requiredVars env).filter (fun p => p.2.isNone)).map (fun p => p.1)

/-- Lines 45-63: `if not all([...])` — if any required value is falsy, raise
`ValueError` carrying the `missing_vars` list. -/
def checkEnvVars (env : RunEnv) : Except RunError Unit :=
  if (requiredVars env).all (fun p => !(isFalsy p.2)) then Except.ok ()
  else Except.error (RunError.configError (missingVars env))

/-- The body of `main`'s `try` block (lines 36-96): validate the environment
variables, construct the clients (`WeatherApiClient.__init__` raises iff the
key is `None`; `MySqlClient.__init__` performs no I/O), extract, transform,
and load with the default method `"upsert"`. -/
def runBody (env : RunEnv) (config_cities : List String) :
    Except RunError TableState := do
  checkEnvVars env
  let _apiKey ← match env.api_key with
    | some k => Except.ok k
    | none => Except.error (RunError.sourceError "API key is None")
  let obs ← (extract_weather env.apiResult config_cities).mapError RunError.sourceError
  let rows := transform_weather obs
  if env.sinkFails then Except.error RunError.sinkError
  else load_weather env.table rows "upsert"

/-- What one scheduled invocation of `main` does from the scheduler's point
of view: either it returns normally (optionally having logged a caught
error), or an exception propagates to the scheduling loop. -/
inductive MainOutcome where
  | returned (logged : Option RunError)
  | raised (e : RunError)
deriving DecidableEq

/-- `main` (lines 17-99): the whole body runs inside `try: ... except
Exception as e: logger.error(...)`, so a raised error is logged and the call
returns normally. -/
def main (env : RunEnv) (config_cities : List String) : MainOutcome :=
  match runBody env config_cities with
  | Except.ok _ => MainOutcome.returned none
  | Except.error e => MainOutcome.returned (some e)

/-! ## Sample values used by witnesses and counterexamples -/

/-- The §8 end-to-end observation for Seoul:
`{dt:1700000000, id:1, name:"Seoul", main.temp:15.2, main.humidity:60,
wind.speed:3.1}` (temperature and wind speed as exact rationals). -/
def seoulObs : Observation :=
  { dt := 1700000000, id := 1, name := "Seoul", temp := some (76 / 5)
    humidity := some 60, windSpeed := some (31 / 10) }

/-- A Busan observation at the same instant. -/
def busanObs : Observation :=
  { dt := 1700000000, id := 2, name := "Busan", temp := none
    humidity := none, windSpeed := none }

/-- A stub API returning a fixed observation per city. -/
def sampleApi (city : String) : Except String Observation :=
  if city = "Seoul" then Except.ok seoulObs
  else Except.ok { busanObs with name := city }

/-- A concrete canonical row (the transform of `seoulObs`). -/
def sampleRow : WeatherRow := transformRow seoulObs

/-- A second concrete canonical row (the transform of `busanObs`). -/
def busanRow : WeatherRow := transformRow busanObs

/-- An environment with all variables set and non-empty, a total API and a
healthy sink. -/
def okEnv : RunEnv :=
  { api_key := some "k", db_server_host := some "h", db_username := some "u"
    db_password := some "p", db_database := some "d", db_port := some "3306"
    apiResult := sampleApi, table := some [], sinkFails := false }

/-- `okEnv` with the database password set to the empty string. -/
def emptyPasswordEnv : RunEnv := { okEnv with db_password := some "" }

/-! ## Helper lemmas: calendar and formatting -/

theorem civilOfEraDoe_bounds (era doe : Nat) (hdoe : doe < 146097) (hera : era ≤ 5) :
    (civilOfEraDoe era doe).1 < 10000 ∧ (civilOfEraDoe era doe).2.1 < 100 ∧
      (civilOfEraDoe era doe).2.2 < 100 := by
  have hyoe : (doe - doe / 1460 + doe / 36524 - doe / 146096) / 365 ≤ 400 := by omega
  have hdoy : doe - (365 * ((doe - doe / 1460 + doe / 36524 - doe / 146096) / 365)
      + ((doe - doe / 1460 + doe / 36524 - doe / 146096) / 365) / 4
      - ((doe - doe / 1460 + doe / 36524 - doe / 146096) / 365) / 100) ≤ 464 := by
    omega
  unfold civilOfEraDoe
  dsimp only
  generalize hg1 : (doe - doe / 1460 + doe / 36524 - doe / 146096) / 365 = yoe at hyoe hdoy ⊢
  generalize hg2 : doe - (365 * yoe + yoe / 4 - yoe / 100) = doy at hdoy ⊢
  split_ifs <;> dsimp only <;> omega

theorem civilFromDays_bounds (z : Nat) (hz : z ≤ 106751) :
    (civilFromDays z).1 < 10000 ∧ (civilFromDays z).2.1 < 100 ∧ (civilFromDays z).2.2 < 100 := by
  have h1 : (z + 719468) % 146097 < 146097 := Nat.mod_lt _ (by norm_num)
  have h2 : (z + 719468) / 146097 ≤ 5 := by omega
  show (civilOfEraDoe ((z + 719468) / 146097) ((z + 719468) % 146097)).1 < 10000 ∧ _ ∧ _
  exact civilOfEraDoe_bounds _ _ h1 h2

theorem digitChar_isDigit (n : Nat) : (digitChar n).isDigit = true := by
  unfold digitChar
  have h : n % 10 < 10 := Nat.mod_lt _ (by norm_num)
  generalize hg : n % 10 = k at h ⊢
  interval_cases k <;> decide

theorem fmt2_data (n : Nat) (h : n < 100) :
    (fmt2 n).data = [digitChar (n / 10), digitChar n] := by
  unfold fmt2
  rw [if_pos h]

theorem fmt4_data (n : Nat) (h : n < 10000) :
    (fmt4 n).data =
      [digitChar (n / 1000), digitChar (n / 100), digitChar (n / 10), digitChar n] := by
  unfold fmt4
  rw [if_pos h]

theorem fmt2_length (n : Nat) (h : n < 100) : (fmt2 n).length = 2 := by
  rw [show (fmt2 n).length = (fmt2 n).data.length from rfl, fmt2_data n h]
  rfl

theorem fmt4_length (n : Nat) (h : n < 10000) : (fmt4 n).length = 4 := by
  rw [show (fmt4 n).length = (fmt4 n).data.length from rfl, fmt4_data n h]
  rfl

theorem fmt2_digits (n : Nat) (h : n < 100) : ∀ c ∈ (fmt2 n).data, c.isDigit = true := by
  rw [fmt2_data n h]
  intro c hc
  simp only [List.mem_cons, List.not_mem_nil, or_false] at hc
  rcases hc with rfl | rfl <;> exact digitChar_isDigit _

theorem fmt4_digits (n : Nat) (h : n < 10000) : ∀ c ∈ (fmt4 n).data, c.isDigit = true := by
  rw [fmt4_data n h]
  intro c hc
  simp only [List.mem_cons, List.not_mem_nil, or_false] at hc
  rcases hc with rfl | rfl | rfl | rfl <;> exact digitChar_isDigit _

theorem dateKeyOf_length (secs : Nat) (h : secs ≤ 9223372036) :
    (dateKeyOf secs).length = 8 := by
  obtain ⟨h1, h2, h3⟩ := civilFromDays_bounds (secs / 86400) (by omega)
  unfold dateKeyOf
  rw [String.length_append, String.length_append,
    fmt4_length _ h1, fmt2_length _ h2, fmt2_length _ h3]

theorem dateKeyOf_digits (secs : Nat) (h : secs ≤ 9223372036) :
    ∀ c ∈ (dateKeyOf secs).data, c.isDigit = true := by
  obtain ⟨h1, h2, h3⟩ := civilFromDays_bounds (secs / 86400) (by omega)
  intro c hc
  have hd : (dateKeyOf secs).data =
      (fmt4 (civilFromDays (secs / 86400)).1).data ++
      ((fmt2 (civilFromDays (secs / 86400)).2.1).data ++
       (fmt2 (civilFromDays (secs / 86400)).2.2).data) := by
    show (fmt4 _ ++ fmt2 _ ++ fmt2 _).data = _
    rw [String.data_append, String.data_append, List.append_assoc]
  rw [hd] at hc
  rcases List.mem_append.mp hc with hc1 | hc2
  · exact fmt4_digits _ h1 c hc1
  · rcases List.mem_append.mp hc2 with hc3 | hc4
    · exact fmt2_digits _ h2 c hc3
    · exact fmt2_digits _ h3 c hc4

theorem timeKeyOf_length (secs : Nat) : (timeKeyOf secs).length = 6 := by
  unfold timeKeyOf
  rw [String.length_append, String.length_append,
    fmt2_length _ (by omega), fmt2_length _ (by omega), fmt2_length _ (by omega)]

/-! ## Helper lemmas: the table model -/

theorem deleteKeys_nil (tbl : List WeatherRow) : deleteKeys tbl [] = tbl := rfl

theorem map_eq_nil_of_isEmpty {df : List WeatherRow}
    (h : ((df.map rowKey).isEmpty) = true) : df = [] := by
  cases df with
  | nil => rfl
  | cons r t => simp [List.isEmpty] at h

theorem filter_keys_self_nil (df : List WeatherRow) :
    df.filter (fun r => decide (rowKey r ∉ df.map rowKey)) = [] := by
  rw [List.filter_eq_nil_iff]
  intro r hr
  simp only [decide_eq_true_eq, Decidable.not_not]
  exact List.mem_map_of_mem rowKey hr

theorem deleteKeys_idem (tbl df : List WeatherRow) :
    deleteKeys (deleteKeys tbl df) df = deleteKeys tbl df := by
  unfold deleteKeys
  by_cases h : (df.map rowKey).isEmpty
  · simp [h]
  · simp only [h, if_neg, Bool.false_eq_true, not_false_eq_true]
    rw [List.filter_eq_self]
    intro r hr
    exact (List.mem_filter.mp hr).2

theorem deleteKeys_append_self (tbl df : List WeatherRow) :
    deleteKeys (deleteKeys tbl df ++ df) df = deleteKeys tbl df := by
  unfold deleteKeys
  by_cases h : (df.map rowKey).isEmpty
  · have hdf : df = [] := map_eq_nil_of_isEmpty h
    subst hdf
    simp
  · simp only [h, Bool.false_eq_true, if_false]
    rw [List.filter_append, filter_keys_self_nil, List.append_nil, List.filter_eq_self]
    intro r hr
    exact (List.mem_filter.mp hr).2

theorem not_mem_deleteKeys_keys (tbl df : List WeatherRow) :
    ∀ k ∈ df.map rowKey, k ∉ (deleteKeys tbl df).map rowKey := by
  intro k hk hmem
  unfold deleteKeys at hmem
  by_cases h : (df.map rowKey).isEmpty
  · rw [map_eq_nil_of_isEmpty h] at hk
    cases hk
  · rw [if_neg (by simp [h])] at hmem
    obtain ⟨r, hr, hrk⟩ := List.mem_map.mp hmem
    have hp : (decide (rowKey r ∉ df.map rowKey)) = true := (List.mem_filter.mp hr).2
    rw [hrk] at hp
    exact (of_decide_eq_true hp) hk

theorem insertOk_deleteKeys (tbl df : List WeatherRow) :
    insertOk (deleteKeys tbl df) df = decide ((df.map rowKey).Nodup) := by
  unfold insertOk
  rw [decide_eq_decide]
  exact ⟨fun h => h.1, fun h => ⟨h, not_mem_deleteKeys_keys tbl df⟩⟩

theorem insertOk_nil_left (df : List WeatherRow) :
    insertOk [] df = decide ((df.map rowKey).Nodup) := by
  unfold insertOk
  rw [decide_eq_decide]
  exact ⟨fun h => h.1, fun h => ⟨h, fun k _ hk => by cases hk⟩⟩

theorem upsert_eq (st : TableState) (df : List WeatherRow) :
    upsert st df =
      if (df.map rowKey).Nodup then (some (deleteKeys (st.getD []) df ++ df), true)
      else (some (deleteKeys (st.getD []) df), false) := by
  unfold upsert create_table
  simp only [Option.getD_some, insertOk_deleteKeys]
  by_cases h : (df.map rowKey).Nodup <;> simp [h]

theorem insert_eq (st : TableState) (df : List WeatherRow) :
    insert st df =
      if insertOk (st.getD []) df then (some (st.getD [] ++ df), true)
      else (some (st.getD []), false) := by
  unfold insert create_table
  simp only [Option.getD_some]

theorem overwrite_eq (st : TableState) (df : List WeatherRow) :
    overwrite st df =
      if (df.map rowKey).Nodup then (some df, true) else (some [], false) := by
  unfold overwrite drop_table
  rw [insert_eq]
  simp only [Option.getD_none, insertOk_nil_left, List.nil_append]
  by_cases h : (df.map rowKey).Nodup <;> simp [h]

theorem timeKeyOf_digits (secs : Nat) : ∀ c ∈ (timeKeyOf secs).data, c.isDigit = true := by
  unfold timeKeyOf
  intro c hc
  rw [String.data_append, String.data_append] at hc
  rcases List.mem_append.mp hc with hc1 | hc2
  · rcases List.mem_append.mp hc1 with hc3 | hc4
    · exact fmt2_digits _ (by omega) c hc3
    · exact fmt2_digits _ (by omega) c hc4
  · exact fmt2_digits _ (by omega) c hc2

/-! ## Claims -/

/-- C1 (counterexample): the primary key declared by `load_weather` is not
only `(dt, time)` — the column `"id"` is also marked `primary_key=True`
(`weather.py`, line 85), so the set of primary-key columns contains a column
other than the date key and the time key. -/
theorem primary_key_includes_station_id :
    "id" ∈ primaryKeyColumns daily_weather_columns ∧ "id" ≠ "dt" ∧ "id" ≠ "time" := by
  decide

/-- C1 (amended): the primary-key columns of the table definition constructed
by `load_weather` are exactly `dt`, `time` and `id` — the date key, the time
key and the station identifier. -/
theorem primary_key_columns_dt_time_id :
    primaryKeyColumns daily_weather_columns = ["dt", "time", "id"] := rfl

/-- C2 (failing input): `extract_weather` reassigns its `cities` parameter to
the hard-coded list `["Busan", "Seoul"]` (`weather.py`, line 19), so for the
one-city request `["Seoul"]` the composition of extraction and transformation
yields 2 rows, not `len(cities) = 1`. -/
theorem extract_ignores_requested_cities :
    (extract_weather sampleApi ["Seoul"]).map (fun l => (transform_weather l).length) =
        Except.ok 2 ∧
      List.length ["Seoul"] = 1 :=
  ⟨rfl, rfl⟩

/-- C3: the upsert load strategy is idempotent per batch: for every table
state and every batch, running `MySqlClient.upsert` a second time with the
identical batch leaves exactly the state (and success flag) of the first run
— no duplicate keys and no extra rows appear. -/
theorem upsert_idempotent (st : TableState) (df : List WeatherRow) :
    upsert (upsert st df).1 df = upsert st df := by
  by_cases h : (df.map rowKey).Nodup <;>
    simp [upsert_eq, h, deleteKeys_append_self, deleteKeys_idem]

/-- C4 (counterexample): upsert is not logically atomic. Starting from a
table holding `sampleRow` (whose key is among the batch's key tuples) and a
batch whose `INSERT` fails (duplicate primary keys inside the batch), the
call leaves the observable state `some []`: the key has been deleted and
committed, but the batch rows were never inserted. -/
theorem upsert_delete_committed_insert_failed :
    upsert (some [sampleRow]) [sampleRow, sampleRow] = (some [], false) ∧
      rowKey sampleRow ∈ [sampleRow].map rowKey := by
  decide

/-- C4 (amended): the `DELETE` of `MySqlClient.upsert` is committed on its
own (line 106) before the separate `df.to_sql` insert; whenever the insert
statement fails, the call leaves the table in the deleted-but-not-reinserted
state: the prior rows sharing the batch's keys are gone and no batch key is
present. -/
theorem upsert_insert_failure_keeps_delete (tbl df : List WeatherRow)
    (h : ¬ (df.map rowKey).Nodup) :
    upsert (some tbl) df = (some (deleteKeys tbl df), false) ∧
      ∀ k ∈ df.map rowKey, k ∉ (deleteKeys tbl df).map rowKey := by
  refine ⟨?_, not_mem_deleteKeys_keys tbl df⟩
  rw [upsert_eq]
  simp [h]

/-- C4 (witness): the amended statement at a concrete table and batch. -/
theorem upsert_insert_failure_keeps_delete_witness :
    ¬ (([sampleRow, sampleRow].map rowKey).Nodup) ∧
      (upsert (some [sampleRow]) [sampleRow, sampleRow] =
          (some (deleteKeys [sampleRow] [sampleRow, sampleRow]), false) ∧
        ∀ k ∈ [sampleRow, sampleRow].map rowKey,
          k ∉ (deleteKeys [sampleRow] [sampleRow, sampleRow]).map rowKey) :=
  ⟨by decide, upsert_insert_failure_keeps_delete [sampleRow] [sampleRow, sampleRow] (by decide)⟩

/-- C5: `transform_weather` sets `measured_at` to the observation timestamp
plus exactly 9 hours, formats `date_key` from it as an 8-digit `YYYYMMDD`
string of decimal digits and `time_key` as a 6-digit `HHMMSS` string, for
every timestamp in the `pandas` `datetime64[ns]` representable range; in
particular `dt = 1700000000` yields `date_key = "20231115"`. -/
theorem transform_timestamp_keys (o : Observation) (h : o.dt + 9 * 3600 ≤ 9223372036) :
    (transformRow o).measured_at = o.dt + 9 * 3600 ∧
      (transformRow o).dt = dateKeyOf (o.dt + 9 * 3600) ∧
      (transformRow o).time = timeKeyOf (o.dt + 9 * 3600) ∧
      (transformRow o).dt.length = 8 ∧
      (∀ c ∈ (transformRow o).dt.data, c.isDigit = true) ∧
      (transformRow o).time.length = 6 ∧
      (∀ c ∈ (transformRow o).time.data, c.isDigit = true) ∧
      (o.dt = 1700000000 →
        (transformRow o).dt = "20231115" ∧ (transformRow o).time = "071320") := by
  refine ⟨rfl, rfl, rfl, dateKeyOf_length _ h, dateKeyOf_digits _ h,
    timeKeyOf_length _, timeKeyOf_digits _, ?_⟩
  intro hdt
  constructor
  · show dateKeyOf (o.dt + 9 * 3600) = _
    rw [hdt]
    decide
  · show timeKeyOf (o.dt + 9 * 3600) = _
    rw [hdt]
    decide

/-- C5 (witness): the theorem applied to the §8 Seoul observation. -/
theorem transform_timestamp_keys_witness :
    (transformRow seoulObs).dt = "20231115" ∧ (transformRow seoulObs).time = "071320" :=
  (transform_timestamp_keys seoulObs (by decide)).2.2.2.2.2.2.2 rfl

/-- C6 (counterexample): loading a batch with duplicated primary keys under
the overwrite strategy does not leave the batch's rows: the bulk insert into
the recreated table fails on the key constraint, leaving an empty table. -/
theorem overwrite_duplicate_batch_loses_rows :
    overwrite (some [busanRow]) [sampleRow, sampleRow] = (some [], false) ∧
      sampleRow ∈ [sampleRow, sampleRow] :=
  ⟨by decide, List.mem_cons_self _ _⟩

/-- C6 (amended): for every prior table state and every batch whose rows
have pairwise-distinct primary keys, the overwrite strategy leaves a table
containing exactly the batch's rows — everything present before, related to
the batch or not, is discarded. -/
theorem overwrite_yields_exactly_batch (st : TableState) (df : List WeatherRow)
    (h : (df.map rowKey).Nodup) : overwrite st df = (some df, true) := by
  rw [overwrite_eq]
  simp [h]

/-- C6 (witness): the amended statement at a concrete prior state (holding an
unrelated row) and a concrete batch. -/
theorem overwrite_yields_exactly_batch_witness :
    (([sampleRow].map rowKey).Nodup) ∧
      overwrite (some [busanRow]) [sampleRow] = (some [sampleRow], true) :=
  ⟨by decide, overwrite_yields_exactly_batch (some [busanRow]) [sampleRow] (by decide)⟩

/-- C7: `MySqlClient.insert` fails on a primary-key clash and leaves the
prior content untouched: for every table state and batch containing a row
whose key already exists, the call reports failure with the table unchanged;
and whenever a first insert of a non-empty batch succeeds, repeating it with
the same batch fails. -/
theorem insert_constraint_violation :
    (∀ (tbl df : List WeatherRow), (∃ r ∈ df, rowKey r ∈ tbl.map rowKey) →
        insert (some tbl) df = (some tbl, false)) ∧
      (∀ (st : TableState) (df : List WeatherRow), df ≠ [] → (insert st df).2 = true →
        (insert (insert st df).1 df).2 = false) := by
  constructor
  · intro tbl df hov
    have hok : insertOk tbl df = false := by
      unfold insertOk
      apply decide_eq_false
      rintro ⟨hnd, hdisj⟩
      obtain ⟨r, hr, hrk⟩ := hov
      exact hdisj (rowKey r) (List.mem_map_of_mem rowKey hr) hrk
    rw [insert_eq]
    simp [hok]
  · intro st df hne htrue
    obtain ⟨r, hr⟩ := List.exists_mem_of_ne_nil df hne
    rw [insert_eq] at htrue
    by_cases hok : insertOk (st.getD []) df = true
    · have hstate : (insert st df).1 = some (st.getD [] ++ df) := by
        rw [insert_eq, if_pos hok]
      rw [insert_eq, hstate]
      have hok2 : insertOk (st.getD [] ++ df) df = false := by
        unfold insertOk
        apply decide_eq_false
        rintro ⟨hnd, hdisj⟩
        refine hdisj (rowKey r) (List.mem_map_of_mem rowKey hr) ?_
        rw [List.map_append]
        exact List.mem_append_right _ (List.mem_map_of_mem rowKey hr)
      rw [if_neg (by simp [hok2])]
    · rw [if_neg hok] at htrue
      exact absurd htrue (by simp)

/-- C7 (witness): both parts at a concrete table and batch. -/
theorem insert_constraint_violation_witness :
    insert (some [sampleRow]) [sampleRow] = (some [sampleRow], false) ∧
      (insert (insert (some ([] : List WeatherRow)) [sampleRow]).1 [sampleRow]).2 = false :=
  ⟨insert_constraint_violation.1 [sampleRow] [sampleRow] (by decide),
    insert_constraint_violation.2 (some []) [sampleRow] (by decide) (by decide)⟩

/-- C8: for every environment (any combination of unset variables, failing
API calls or a failing sink) and every configured city list, one scheduled
invocation of `main` returns normally — every error is caught at the
`try/except` boundary and logged, and no exception reaches the scheduling
loop. -/
theorem main_never_raises (env : RunEnv) (config_cities : List String) :
    (∃ logged, main env config_cities = MainOutcome.returned logged) ∧
      ∀ e, main env config_cities ≠ MainOutcome.raised e := by
  unfold main
  cases hb : runBody env config_cities with
  | ok v => exact ⟨⟨none, rfl⟩, fun e hc => by cases hc⟩
  | error e => exact ⟨⟨some e, rfl⟩, fun e2 hc => by cases hc⟩

/-- C8 (witness): the theorem at a concrete healthy environment. -/
theorem main_never_raises_witness :
    (∃ logged, main okEnv ["Seoul"] = MainOutcome.returned logged) ∧
      ∀ e, main okEnv ["Seoul"] ≠ MainOutcome.raised e :=
  main_never_raises okEnv ["Seoul"]

/-- C9: the empty batch is a no-op for `MySqlClient.upsert`: no `DELETE` is
issued (the `if key_values:` guard) and the empty insert adds nothing, so an
existing table keeps exactly its rows, and the only effect on an absent
table is its creation. -/
theorem upsert_empty_batch_preserves :
    (∀ tbl : List WeatherRow, upsert (some tbl) ([] : List WeatherRow) = (some tbl, true)) ∧
      upsert none ([] : List WeatherRow) = (some [], true) := by
  constructor
  · intro tbl
    rw [upsert_eq]
    simp [deleteKeys_nil]
  · rw [upsert_eq]
    simp [deleteKeys_nil]

/-- C10: when every required environment variable is set but at least one is
the empty string, the run aborts in the validation step — before the clients
are built and before any extraction — with a `ValueError` whose
`missing_vars` list is empty (only `None` values are collected), so the
aggregated message names no variables; `main` catches and logs it. -/
theorem empty_required_var_logs_nameless_config_error (env : RunEnv) (cities : List String)
    (hset : ∀ p ∈ requiredVars env, p.2 ≠ none)
    (hempty : ∃ p ∈ requiredVars env, p.2 = some "") :
    runBody env cities = Except.error (RunError.configError []) ∧
      main env cities = MainOutcome.returned (some (RunError.configError [])) := by
  have hfalsy : (requiredVars env).all (fun p => !(isFalsy p.2)) = false := by
    rw [List.all_eq_false]
    obtain ⟨p, hp, hps⟩ := hempty
    refine ⟨p, hp, ?_⟩
    rw [hps]
    decide
  have hfilter : (requiredVars env).filter (fun p => p.2.isNone) = [] := by
    rw [List.filter_eq_nil_iff]
    intro p hp hcon
    exact hset p hp (Option.isNone_iff_eq_none.mp hcon)
  have hmiss : missingVars env = [] := by
    unfold missingVars
    rw [hfilter]
    rfl
  have hcheck : checkEnvVars env = Except.error (RunError.configError []) := by
    unfold checkEnvVars
    rw [hfalsy, hmiss]
    rfl
  have hrb : runBody env cities = Except.error (RunError.configError []) := by
    unfold runBody
    rw [hcheck]
    rfl
  exact ⟨hrb, by simp [main, hrb]⟩

/-- C10 (witness): the theorem at a concrete environment whose only flaw is
an empty `DB_PASSWORD`. -/
theorem empty_required_var_witness :
    (∀ p ∈ requiredVars emptyPasswordEnv, p.2 ≠ none) ∧
      (∃ p ∈ requiredVars emptyPasswordEnv, p.2 = some "") ∧
      (runBody emptyPasswordEnv ["Seoul"] = Except.error (RunError.configError []) ∧
        main emptyPasswordEnv ["Seoul"] = MainOutcome.returned (some (RunError.configError []))) :=
  ⟨by decide, by decide,
    empty_required_var_logs_nameless_config_error emptyPasswordEnv ["Seoul"]
      (by decide) (by decide)⟩

end WeatherEtl
